import Mathlib

/-!
Verification development for the Kong admin-API reconciliation client
(`kong/__init__.py`, `kong/plugin.py`, `kong/route.py`).

The Python code is shallowly embedded: HTTP transport results are supplied
by explicit environment records (one function per endpoint family), JSON
payload values become the inductive `Val`, Python exceptions become the
`PyErr` sum carried in `Except`, and Python dictionaries become ordered
association lists with dict-style update semantics (`setKey`, `dictUpdate`).

The files `kong/service.py` and `kong/consumer.py` are imported by the
sources but are not part of the repository snapshot; following the spec
(section 4.2, Resource Resolvers) their `get` operations are modelled as
environment functions of type `String -> Option Obj` returning `none` for
a not-found name.
-/

/-- JSON-like payload values (the bodies the client sends and receives). -/
inductive Val where
  | str : String → Val
  | int : Int → Val
  | bool : Bool → Val
  | null : Val
  | list : List Val → Val
  | obj : List (String × Val) → Val

/-- Python exception classes that the embedded code can raise. `divergent`
is not a Python exception: it marks exhaustion of the explicit fuel that
stands in for the unbounded `while` pagination loop. -/
inductive PyErr where
  | valueError (msg : String)
  | attributeError (msg : String)
  | typeError (msg : String)
  | keyError (key : String)
  | httpError (status : Nat)
  | connectionError (msg : String)
  | exception (msg : String)
  | divergent
deriving DecidableEq

/-- A remote resource object, as far as the client reads it: a JSON object
whose accessed fields are strings (only the field `id` is ever read). -/
abbrev Obj := List (String × String)

/-- Python truthiness of an optional string (`None` and the empty string
are falsy). -/
def optStrTruthy : Option String → Bool
  | none => false
  | some s => s != ""

/-- Python truthiness of an optional JSON object (`None` and the empty
object are falsy). -/
def optObjTruthy : Option Obj → Bool
  | none => false
  | some o => !o.isEmpty

/-- Python truthiness of a JSON value. -/
def pyTruthyVal : Val → Bool
  | .str s => s != ""
  | .int n => n != 0
  | .bool b => b
  | .null => false
  | .list l => !l.isEmpty
  | .obj l => !l.isEmpty

/-- Python truthiness of an optional JSON value. -/
def pyTruthyOpt : Option Val → Bool
  | none => false
  | some v => pyTruthyVal v

/-- Python dict assignment `d[k] = v`: overwrite in place when the key is
present (keeping its position), append otherwise. -/
def setKey {α : Type} (d : List (String × α)) (k : String) (v : α) : List (String × α) :=
  if d.any (fun kv => kv.fst == k) then
    d.map (fun kv => if kv.fst == k then (k, v) else kv)
  else d ++ [(k, v)]

/-- Python `d.update(u)`: fold dict assignment over the entries of `u`. -/
def dictUpdate {α : Type} (d u : List (String × α)) : List (String × α) :=
  u.foldl (fun acc kv => setKey acc kv.fst kv.snd) d

/-- Join URI segments with slashes (the part of `Kong._url` downstream of
the fixed base address). -/
def joinUri (segs : List String) : String :=
  String.intercalate ("/") segs

/-- Python `s.strip(slash)`: remove slashes from both ends of the string
(note: both the leading and the trailing end). -/
def pyStripSlash (s : String) : String :=
  let t := (s.toList.dropWhile (fun ch => ch == '/')).reverse
  String.mk ((t.dropWhile (fun ch => ch == '/')).reverse)

/-- Hexadecimal digit test, as accepted by Python `int(x, 16)`. -/
def hexDigit (ch : Char) : Bool :=
  ch.isDigit || ('a' ≤ ch && ch ≤ 'f') || ('A' ≤ ch && ch ≤ 'F')

/-- Model of `uuid.UUID(s)` succeeding: after dropping hyphens the string
must be 32 hexadecimal digits. (Python additionally tolerates `urn:uuid:`
prefixes and surrounding braces; the sources only ever pass plain ids.) -/
def uuidOk (s : String) : Bool :=
  let t := s.toList.filter (fun ch => ch != '-')
  t.length == 32 && t.all hexDigit

/-- Lexicographic comparison of character lists, the semantics of the
Python string `<` operator (code-point order). -/
def clLt : List Char → List Char → Bool
  | [], [] => false
  | [], _ :: _ => true
  | _ :: _, [] => false
  | a :: as, b :: bs => if a < b then true else if a = b then clLt as bs else false

/-- Python string less-or-equal, as a Boolean. -/
def strLeB (a b : String) : Bool := clLt a.data b.data || (a == b)

/-- Insert a string into a list, before the first element it compares
less-or-equal to. -/
def pyInsert (a : String) : List String → List String
  | [] => [a]
  | b :: bs => if strLeB a b then a :: b :: bs else b :: pyInsert a bs

/-- Python `sorted` on a list of strings: ascending code-point order.
(Since the comparison is antisymmetric, the sorted arrangement of a
multiset of strings is unique, so insertion sort agrees extensionally
with the stable mergesort CPython uses.) -/
def sortS : List String → List String
  | [] => []
  | a :: as => pyInsert a (sortS as)

/-- Format an optional name the way `str.format` renders it when absent
(`None`). Quote characters that the Python format strings place around the
value are elided throughout this development. -/
def fmtO : Option String → String
  | none => "None"
  | some s => s

/-- Format the consumer name argument, whose unsupplied default in
`plugin_apply` and `plugin_delete` is `False` rather than `None`. -/
def fmtC : Option String → String
  | none => "False"
  | some s => s

/-- The ambiguity message of `plugin_apply` and `plugin_delete`: prefix
followed by the full identifying tuple of the Plugin. -/
def multiMsg (pre : String) (name : String) (s r c : Option String) : String :=
  pre ++ name ++ (", service: ") ++ fmtO s ++ (", route: ") ++ fmtO r ++ (", consumer: ") ++ fmtC c

/-- A Plugin record as read back from the gateway: `id` and `name` fields
plus the three optional binding objects. -/
structure Plugin where
  id : Option String
  name : Option String
  consumer : Option Obj
  service : Option Obj
  route : Option Obj
deriving DecidableEq

/-- One page of a list response: the `data` array and the `next` cursor. -/
structure Page where
  data : List Plugin
  next : Option String
deriving DecidableEq

/-- Environment of `KongPlugin`: resolver results and transport responses.
`serviceGet` and `consumerGet` stand for the `service_get` and
`consumer_get` resolvers, whose files are missing from the snapshot;
they are modelled from the spec as `get(name) -> Resource | None`.
`routeGet` abstracts `route_get` (present in `kong/route.py` and embedded
separately below over `HttpEnv`) at the same resolver interface.
`pageGet` maps a GET path (relative to the base address) to the parsed
page, and `deleteStatus` gives the HTTP status of a DELETE on a path. -/
structure PluginEnv where
  serviceGet : String → Option Obj
  routeGet : String → Option Obj
  consumerGet : String → Option Obj
  pageGet : String → Page
  deleteStatus : String → Nat

/-- Model of `KongPlugin._prepare_config`: prefix every key of the config dict. -/
def prepare_config (config : List (String × Val)) : List (String × Val) :=
  config.map (fun kv => (("config.") ++ kv.fst, kv.snd))

/-- The resolution step of `plugin_query` for one supplied name, exactly as
written in the source: `x = get(x); x_id = x.get(id); uuid.UUID(x_id)`.
When `get` returns `None` the attribute access on `None` raises
`AttributeError`; the `if x is None: raise ValueError(...)` test that
follows in the source is dead code because `x` was already dereferenced. -/
def queryResolve (get : String → Option Obj) (nm : String) : Except PyErr String :=
  match get nm with
  | none => .error (.attributeError ("NoneType object has no attribute get"))
  | some o =>
    match o.lookup ("id") with
    | none => .error (.typeError ("one of the hex, bytes, bytes_le, fields, or int arguments must be given"))
    | some i =>
      if uuidOk i then .ok i
      else .error (.valueError ("badly formed hexadecimal UUID string"))

/-- Resolution of an optional name in `plugin_query`: only truthy names are
resolved, mirroring the `if service_name:` guards. -/
def resolveOpt (get : String → Option Obj) (nm : Option String) : Except PyErr (Option String) :=
  if optStrTruthy nm then (queryResolve get (nm.getD (""))).map some
  else .ok none

/-- The query URI of `plugin_query`: starts at the plugins collection
(or a single plugin when `plugin_id` is truthy) and is overridden by each
truthy binding name in source order, the consumer scope winning last. -/
def queryUri (service_name route_name consumer_name plugin_id : Option String) : List String :=
  let u0 := if optStrTruthy plugin_id then [("plugins"), plugin_id.getD ("")] else [("plugins")]
  let u1 := if optStrTruthy service_name then [("services"), service_name.getD (""), ("plugins")] else u0
  let u2 := if optStrTruthy route_name then [("routes"), route_name.getD (""), ("plugins")] else u1
  if optStrTruthy consumer_name then [("consumers"), consumer_name.getD (""), ("plugins")] else u2

/-- The loop condition `while res[next]`: the cursor when it is truthy. -/
def nextTruthy : Option String → Option String
  | none => none
  | some s => if s == "" then none else some s

/-- The pagination loop body of `plugin_query`, with explicit fuel standing
for the unbounded `while`: follow the truthy cursor (slashes stripped from
both ends by Python `strip`), fetch the next page and accumulate its data.
Returns the data of all pages after the given one, in page order. -/
def walkData (get : String → Page) : Nat → Page → Except PyErr (List Plugin)
  | fuel, res =>
    match nextTruthy res.next with
    | none => .ok []
    | some cur =>
      match fuel with
      | 0 => .error .divergent
      | f + 1 =>
        let res2 := get (pyStripSlash cur)
        (walkData get f res2).map (fun rest => res2.data ++ rest)

/-- The id field of a binding object attached to a Plugin. -/
def bindId : Option Obj → Option String
  | some o => o.lookup ("id")
  | none => none

/-- The match filter of `plugin_query`, transcribing the five `continue`
guards: name equality, then for each of consumer, service and route a
truthiness agreement check followed by an id equality check guarded by the
truthiness of the binding object. -/
def pluginMatches (name : Option String) (sid rid cid : Option String) (p : Plugin) : Bool :=
  (p.name == name) &&
  (optObjTruthy p.consumer == optStrTruthy cid) &&
  (!(optObjTruthy p.consumer && (bindId p.consumer != cid))) &&
  (optObjTruthy p.service == optStrTruthy sid) &&
  (!(optObjTruthy p.service && (bindId p.service != sid))) &&
  (optObjTruthy p.route == optStrTruthy rid) &&
  (!(optObjTruthy p.route && (bindId p.route != rid)))

/-- Model of `KongPlugin.plugin_query`. In order: the precondition that at least one
of `plugin_id` and `name` is given, the binding resolutions (each of which
can raise, see `queryResolve`), the paginated fetch starting from the
scoped URI, and the match filter over the accumulated `data` arrays. -/
def plugin_query (env : PluginEnv) (fuel : Nat) (name : Option String)
    (service_name route_name consumer_name plugin_id : Option String) :
    Except PyErr (List Plugin) :=
  if plugin_id = none ∧ name = none then
    .error (.valueError ("Need at least one of plugin_id or name"))
  else
    match resolveOpt env.serviceGet service_name with
    | .error e => .error e
    | .ok sid =>
      match resolveOpt env.routeGet route_name with
      | .error e => .error e
      | .ok rid =>
        match resolveOpt env.consumerGet consumer_name with
        | .error e => .error e
        | .ok cid =>
          let p0 := env.pageGet (joinUri (queryUri service_name route_name consumer_name plugin_id))
          match walkData env.pageGet fuel p0 with
          | .error e => .error e
          | .ok rest => .ok ((p0.data ++ rest).filter (pluginMatches name sid rid cid))

/-- Resolution of an optional binding name in `plugin_apply`, which unlike
`plugin_query` does test the resolver result against `None` before reading
the id (`s = get(name); if s is None: raise ValueError(...); s[id]`).
A missing id field raises `KeyError` (subscript, not `.get`). -/
def applyResolveOpt (get : String → Option Obj) (kind : String) (nm : Option String) :
    Except PyErr (Option String) :=
  if optStrTruthy nm then
    match get (nm.getD ("")) with
    | none => .error (.valueError (kind ++ (" ") ++ nm.getD ("") ++ (" not found")))
    | some o =>
      match o.lookup ("id") with
      | none => .error (.keyError ("id"))
      | some i => .ok (some i)
  else .ok none

/-- Payload construction of `plugin_apply`: the `name` field, then the
config dict merged in with every key prefixed by `config.`, then one
`<relation>.id` entry per supplied binding, in source order. The
`isinstance(config, dict)` test of the source is subsumed by typing the
config parameter as an association list. -/
def applyPayload (env : PluginEnv) (name : String) (config : Option (List (String × Val)))
    (service_name route_name consumer_name : Option String) :
    Except PyErr (List (String × Val)) :=
  let d0 : List (String × Val) := [(("name"), Val.str name)]
  let d1 := match config with
    | none => d0
    | some cfg => dictUpdate d0 (prepare_config cfg)
  match applyResolveOpt env.serviceGet ("Service") service_name with
  | .error e => .error e
  | .ok sid =>
    match applyResolveOpt env.routeGet ("Route") route_name with
    | .error e => .error e
    | .ok rid =>
      match applyResolveOpt env.consumerGet ("Consumer") consumer_name with
      | .error e => .error e
      | .ok cid =>
        let d2 := match sid with | some i => setKey d1 ("service.id") (Val.str i) | none => d1
        let d3 := match rid with | some i => setKey d2 ("route.id") (Val.str i) | none => d2
        let d4 := match cid with | some i => setKey d3 ("consumer.id") (Val.str i) | none => d3
        .ok d4

/-- The write issued by `plugin_apply`: a POST of the payload to the
plugins collection (create) or a PATCH of the payload against the id of
the matched Plugin (update). The transport response is abstracted away. -/
inductive ApplyAction where
  | created (data : List (String × Val))
  | updated (pid : Option String) (data : List (String × Val))

/-- Model of `KongPlugin.plugin_apply`: build the payload (resolving names with
proper not-found checks), query for existing matches with the same
identifying tuple, then decide: more than one match is a fatal ambiguity,
one match is updated in place, zero matches triggers a create. -/
def plugin_apply (env : PluginEnv) (fuel : Nat) (name : String)
    (config : Option (List (String × Val)))
    (service_name route_name consumer_name : Option String) :
    Except PyErr ApplyAction :=
  match applyPayload env name config service_name route_name consumer_name with
  | .error e => .error e
  | .ok data =>
    match plugin_query env fuel (some name) service_name route_name consumer_name none with
    | .error e => .error e
    | .ok p =>
      if 1 < p.length then
        .error (.valueError (multiMsg ("Multiple Plugin records for name: ") name service_name route_name consumer_name))
      else
        match p with
        | p0 :: _ => .ok (.updated p0.id data)
        | [] => .ok (.created data)

/-- Outcome of a delete entry point: either a DELETE was issued against the
given path and returned the given value, or no action was taken (the
Python `False` return). -/
inductive DeleteResult where
  | deleted (path : String) (ret : Bool)
  | noAction
deriving DecidableEq

/-- Model of `Kong._delete` as used by `plugin_delete`: a DELETE whose only accepted
status is 204, any other status raising a generic `Exception`. -/
def pdelete (env : PluginEnv) (path : String) : Except PyErr Bool :=
  if env.deleteStatus path == 204 then .ok true
  else .error (.exception ("Unexpected HTTP code"))

/-- Model of `KongPlugin.plugin_delete`: query for matches, fail on ambiguity,
delete the single match if one exists and report no action otherwise. -/
def plugin_delete (env : PluginEnv) (fuel : Nat) (name : String)
    (service_name route_name consumer_name : Option String) :
    Except PyErr DeleteResult :=
  match plugin_query env fuel (some name) service_name route_name consumer_name none with
  | .error e => .error e
  | .ok p =>
    if 1 < p.length then
      .error (.valueError (multiMsg ("Found multiple Plugin records for name: ") name service_name route_name consumer_name))
    else
      match p with
      | p0 :: _ =>
        match pdelete env (joinUri (("plugins") :: p0.id.toList)) with
        | .error e => .error e
        | .ok b => .ok (.deleted (joinUri (("plugins") :: p0.id.toList)) b)
      | [] => .ok .noAction

/-- A Route record as read by `route_query`: the four list-valued matching
fields, each possibly absent in the JSON. -/
structure Route where
  id : Option String
  hosts : Option (List String)
  paths : Option (List String)
  methods : Option (List String)
  protocols : Option (List String)
deriving DecidableEq

/-- Environment of `KongRoute.route_query`: the `service_get` resolver
(modelled from the spec, its file being absent from the snapshot) and
`route_list`, which is `GET services/<name>/routes` projected onto its
first-page `data` array as in the source. -/
structure RouteEnv where
  serviceGet : String → Option Obj
  routeList : String → List Route

/-- Default an absent list field to the empty list, as in
`r.get(hosts) if r.get(hosts) is not None else []`. -/
def orEmpty : Option (List String) → List String
  | none => []
  | some l => l

/-- The match condition of `route_query`: Python `sorted` equality on each
of the four fields, absent fields defaulted to empty lists. -/
def routeMatch (r : Route) (hosts paths methods protocols : List String) : Bool :=
  (sortS (orEmpty r.hosts) == sortS hosts) &&
  (sortS (orEmpty r.paths) == sortS paths) &&
  (sortS (orEmpty r.methods) == sortS methods) &&
  (sortS (orEmpty r.protocols) == sortS protocols)

/-- Model of `KongRoute.route_query`: resolve the Service (fatal if not found),
collect the Routes whose four field sets compare equal under `sorted`,
fail on more than one match, return the single match or `None`. -/
def route_query (env : RouteEnv) (service_name : String)
    (hosts paths methods protocols : List String) : Except PyErr (Option Route) :=
  match env.serviceGet service_name with
  | none => .error (.valueError (("Service ") ++ service_name ++ (" not found. Has it been created?")))
  | some _ =>
    let result := (env.routeList service_name).filter
      (fun r => routeMatch r hosts paths methods protocols)
    if 1 < result.length then
      .error (.valueError ("Duplicate routes found. Clean up manually first"))
    else .ok result.head?

/-- Outcome of one raw HTTP exchange: a status code with a parsed body, or
a transport-level failure below the HTTP layer (which `requests` raises as
an exception that is not an `HTTPError`). -/
inductive HttpOutcome where
  | resp (status : Nat) (body : Val)
  | netFail (msg : String)

/-- Raw transport environment for the `kong/route.py` functions, keyed by
the path relative to the base address. -/
structure HttpEnv where
  get : String → HttpOutcome
  delete : String → Nat

/-- Model of `Kong._get` over `HttpEnv`: `raise_for_status` turns every status of
400 and above into an `HTTPError`; transport failures propagate as
themselves; otherwise the parsed body is returned. -/
def kget (env : HttpEnv) (path : String) : Except PyErr Val :=
  match env.get path with
  | .netFail m => .error (.connectionError m)
  | .resp code body => if 400 ≤ code then .error (.httpError code) else .ok body

/-- Model of `KongRoute.route_get`: a GET of `routes/<id>` whose `HTTPError` class
of failures (any unsuccessful status) is converted to `None`; every other
exception propagates. -/
def route_get (env : HttpEnv) (route_id : String) : Except PyErr (Option Val) :=
  match kget env (joinUri [("routes"), route_id]) with
  | .error (.httpError _) => .ok none
  | .error e => .error e
  | .ok r => .ok (some r)

/-- Model of `Kong._delete` over `HttpEnv`: only status 204 is accepted. -/
def hdelete (env : HttpEnv) (path : String) : Except PyErr Bool :=
  if env.delete path == 204 then .ok true
  else .error (.exception ("Unexpected HTTP code"))

/-- Model of `KongRoute.route_delete`: delete the Route when `route_get` returns a
truthy object, otherwise report that no action was taken. -/
def route_delete (env : HttpEnv) (route_id : String) : Except PyErr DeleteResult :=
  match route_get env route_id with
  | .error e => .error e
  | .ok r =>
    if pyTruthyOpt r then
      match hdelete env (joinUri [("routes"), route_id]) with
      | .error e => .error e
      | .ok b => .ok (.deleted (joinUri [("routes"), route_id]) b)
    else .ok .noAction

/-- The mutable fields of the `Kong` client object: the base address, the
basic-auth pair and the header dict. -/
structure KongState where
  base_url : String
  auth : Option (String × String)
  headers : List (String × String)
deriving DecidableEq

/-- Per-call responses of the raw transport, one function per verb, keyed
by the full URL. -/
structure TransportEnv where
  getR : String → Nat × Val
  postR : String → Nat × Val
  patchR : String → Nat × Val
  putR : String → Nat × Val
  deleteR : String → Nat

/-- Model of `Kong.__init__`: store the base address; when both credentials are
given, set the basic-auth pair and a `Kong-Admin-Token` header. -/
def kong_init (base_url : String) (auth_user auth_pass : Option String) : KongState :=
  match auth_user, auth_pass with
  | some u, some p => ⟨base_url, some (u, p), [(("Kong-Admin-Token"), p)]⟩
  | _, _ => ⟨base_url, none, []⟩

/-- Model of `Kong._url`: join the base address with the URI segments, dropping
`None` segments. -/
def kurl (st : KongState) (uri : List (Option String)) : String :=
  let args := uri.filterMap id
  if args.isEmpty then st.base_url
  else String.intercalate ("/") (st.base_url :: args)

/-- The header-merging prelude shared by `Kong._post` and `Kong._patch`:
`if headers and isinstance(headers, dict): self.headers.update(headers)`.
A truthy (non-empty) per-call header dict is merged into the header dict
stored on the object, where it persists for later calls. -/
def hdrMerge (st : KongState) (headers : Option (List (String × String))) : KongState :=
  match headers with
  | some hs => if hs.isEmpty then st else { st with headers := dictUpdate st.headers hs }
  | none => st

/-- Model of `Kong._get`: no state change; status 400 and above raises `HTTPError`
via `raise_for_status`. -/
def kong_get (st : KongState) (env : TransportEnv) (uri : List (Option String)) :
    KongState × Except PyErr Val :=
  let r := env.getR (kurl st uri)
  (st, if 400 ≤ r.fst then .error (.httpError r.fst) else .ok r.snd)

/-- Model of `Kong._post`: merge per-call headers into the object state, then
require status 201, any other status raising a generic `Exception`. -/
def kong_post (st : KongState) (env : TransportEnv) (uri : List (Option String))
    (_data : Option Val) (headers : Option (List (String × String))) :
    KongState × Except PyErr Val :=
  let st1 := hdrMerge st headers
  let r := env.postR (kurl st1 uri)
  (st1, if r.fst == 201 then .ok r.snd else .error (.exception ("Unexpected HTTP code")))

/-- Model of `Kong._patch`: merge per-call headers into the object state, then
require status 200, any other status raising a generic `Exception`. -/
def kong_patch (st : KongState) (env : TransportEnv) (uri : List (Option String))
    (_data : Option Val) (headers : Option (List (String × String))) :
    KongState × Except PyErr Val :=
  let st1 := hdrMerge st headers
  let r := env.patchR (kurl st1 uri)
  (st1, if r.fst == 200 then .ok r.snd else .error (.exception ("Unexpected HTTP code")))

/-- Model of `Kong._put`: no state change; 201 returns `True`, otherwise
`raise_for_status` applies and the body is returned on success. -/
def kong_put (st : KongState) (env : TransportEnv) (uri : List (Option String))
    (_data : Option Val) : KongState × Except PyErr Val :=
  let r := env.putR (kurl st uri)
  (st,
    if r.fst == 201 then .ok (Val.bool true)
    else if 400 ≤ r.fst then .error (.httpError r.fst)
    else .ok r.snd)

/-- Model of `Kong._delete`: no state change; only status 204 is accepted. -/
def kong_delete (st : KongState) (env : TransportEnv) (uri : List (Option String)) :
    KongState × Except PyErr Bool :=
  let code := env.deleteR (kurl st uri)
  (st, if code == 204 then .ok true else .error (.exception ("Unexpected HTTP code")))

/-- Python `s.lstrip(slash)`: remove slashes from the leading end only.
Modelled from the claim wording (leading slash stripped), for comparison
with the `strip` call the source actually makes. -/
def stripLeadSlash (s : String) : String :=
  String.mk (s.toList.dropWhile (fun ch => ch == '/'))

/-- The pagination loop as the claim words it: like `walkData` but with
only the leading slashes of the cursor stripped. -/
def specWalkData (get : String → Page) : Nat → Page → Except PyErr (List Plugin)
  | fuel, res =>
    match nextTruthy res.next with
    | none => .ok []
    | some cur =>
      match fuel with
      | 0 => .error .divergent
      | f + 1 =>
        let res2 := get (stripLeadSlash cur)
        (specWalkData get f res2).map (fun rest => res2.data ++ rest)

/-- The chain of pages that the pagination loop visits after the given
page, assuming the cursor becomes falsy after exactly the given number of
follow-ups. -/
def chainPages (get : String → Page) : Nat → Page → List Page
  | 0, _ => []
  | k + 1, p =>
    match nextTruthy p.next with
    | none => []
    | some cur => get (pyStripSlash cur) :: chainPages get k (get (pyStripSlash cur))

/-- One hop of the cursor chain: the page the truthy cursor points at, or
the page itself when the cursor is falsy. -/
def hop (get : String → Page) (p : Page) : Page :=
  match nextTruthy p.next with
  | none => p
  | some cur => get (pyStripSlash cur)

/-- The Prop form of the Python string comparison, used for sortedness. -/
def sLe (a b : String) : Prop := strLeB a b = true

/-- Canonical test ids used by concrete environments below. -/
def sidA : String := "11111111-1111-1111-1111-111111111111"

def cidA : String := "22222222-2222-2222-2222-222222222222"

def ridA : String := "33333333-3333-3333-3333-333333333333"

/-- A Plugin bound to all three of the canonical resources. -/
def pM : Plugin :=
  ⟨some ("pid0"), some ("rate-limiting"), some [(("id"), cidA)],
   some [(("id"), sidA)], some [(("id"), ridA)]⟩

/-- A concrete environment with one Service, Route and Consumer and one
Plugin bound to all three, served on the consumer-scoped plugins page. -/
def envW : PluginEnv :=
  { serviceGet := fun n => if n == "svc1" then some [(("id"), sidA)] else none
    routeGet := fun n => if n == "rt1" then some [(("id"), ridA)] else none
    consumerGet := fun n => if n == "cons1" then some [(("id"), cidA)] else none
    pageGet := fun u => if u == "consumers/cons1/plugins" then ⟨[pM], none⟩ else ⟨[], none⟩
    deleteStatus := fun _ => 204 }

/-- An environment in which every resolver reports not-found. -/
def env4 : PluginEnv :=
  { serviceGet := fun _ => none
    routeGet := fun _ => none
    consumerGet := fun _ => none
    pageGet := fun _ => ⟨[], none⟩
    deleteStatus := fun _ => 204 }

/-- A transport environment with constant successful responses. -/
def tenv0 : TransportEnv :=
  { getR := fun _ => (200, Val.null)
    postR := fun _ => (201, Val.null)
    patchR := fun _ => (200, Val.null)
    putR := fun _ => (201, Val.null)
    deleteR := fun _ => 204 }

/-- The client state produced by the constructor with credentials. -/
def st0 : KongState := kong_init ("http://localhost:8001") (some ("kong_admin")) (some ("kong123"))

/-- An HTTP environment whose every GET answers with status 500. -/
def env500 : HttpEnv :=
  { get := fun _ => .resp 500 Val.null
    delete := fun _ => 204 }

/-- Distinct marker plugins for the pagination counterexample. -/
def pX : Plugin := ⟨some ("x"), none, none, none, none⟩

def pY : Plugin := ⟨some ("y"), none, none, none, none⟩

/-- A page function whose first cursor is the path `/p/` with both a
leading and a trailing slash: `p` (both ends stripped, as the code does)
and `p/` (only the leading slash stripped, as the claim words it) hold
different data. -/
def gC8 : String → Page := fun u =>
  if u == "p" then ⟨[pY], none⟩
  else if u == "p/" then ⟨[pX], none⟩
  else ⟨[], some ("/p/")⟩

/-- The first page of the pagination counterexample. -/
def p0C8 : Page := ⟨[], some ("/p/")⟩

/-- A Route whose hosts list contains a duplicate entry. -/
def rAA : Route := ⟨some ("r1"), some [("a"), ("a")], none, none, none⟩

/-- A route environment exposing only `rAA` under Service `s1`. -/
def envDup : RouteEnv :=
  { serviceGet := fun n => if n == "s1" then some [(("id"), sidA)] else none
    routeList := fun _ => [rAA] }

/-- A Route with hosts `[a, b]` under Service `s1`. -/
def rAB : Route := ⟨some ("r1"), some [("a"), ("b")], none, none, none⟩

/-- A route environment exposing only `rAB` under Service `s1`. -/
def envAB : RouteEnv :=
  { serviceGet := fun n => if n == "s1" then some [(("id"), sidA)] else none
    routeList := fun _ => [rAB] }

/-- The payload carried by an apply action. -/
def ApplyAction.payload : ApplyAction → List (String × Val)
  | .created d => d
  | .updated _ d => d

/-- One `<relation>.id` payload entry, empty when the binding was not
supplied. -/
def idEntry (k : String) : Option String → List (String × Val)
  | some i => [(k, Val.str i)]
  | none => []

/-- The spec example config mapping: `a` maps to 1 and `b` to a nested
object. -/
def cfgW : List (String × Val) := [(("a"), Val.int 1), (("b"), Val.obj [(("c"), Val.int 2)])]

/-- The apply action `plugin_apply` takes on `envW` with `cfgW` and the
Service binding `svc1` (no existing match, so a create). -/
def actW : ApplyAction :=
  .created [(("name"), Val.str ("rate-limiting")),
            (("config.a"), Val.int 1),
            (("config.b"), Val.obj [(("c"), Val.int 2)]),
            (("service.id"), Val.str sidA)]

/-- The payload `plugin_apply` builds on `envW` for all three bindings and
no config. -/
def dataW1 : List (String × Val) :=
  [(("name"), Val.str ("rate-limiting")),
   (("service.id"), Val.str sidA),
   (("route.id"), Val.str ridA),
   (("consumer.id"), Val.str cidA)]

/-- An HTTP environment with one Route `rt1` and 204 on DELETE. -/
def henvW : HttpEnv :=
  { get := fun u => if u == "routes/rt1" then .resp 200 (Val.obj [(("id"), Val.str ridA)]) else .resp 404 Val.null
    delete := fun _ => 204 }

theorem clLt_connex : ∀ as bs : List Char, clLt as bs = true ∨ clLt bs as = true ∨ as = bs
  | [], [] => Or.inr (Or.inr rfl)
  | [], _ :: _ => Or.inl rfl
  | _ :: _, [] => Or.inr (Or.inl rfl)
  | a :: as, b :: bs => by
    rcases lt_trichotomy a b with hab | hab | hab
    · exact Or.inl (by simp [clLt, hab])
    · subst hab
      rcases clLt_connex as bs with h | h | h
      · exact Or.inl (by simp [clLt, h])
      · exact Or.inr (Or.inl (by simp [clLt, h]))
      · exact Or.inr (Or.inr (by rw [h]))
    · exact Or.inr (Or.inl (by simp [clLt, hab]))

theorem clLt_asymm : ∀ as bs : List Char, clLt as bs = true → clLt bs as = true → False
  | [], [], h1, _ => by simp [clLt] at h1
  | [], _ :: _, _, h2 => by simp [clLt] at h2
  | _ :: _, [], h1, _ => by simp [clLt] at h1
  | a :: as, b :: bs, h1, h2 => by
    simp only [clLt] at h1 h2
    rcases lt_trichotomy a b with hab | hab | hab
    · rw [if_neg (lt_asymm hab), if_neg (fun he => absurd he.symm (ne_of_lt hab))] at h2
      exact absurd h2 (by simp)
    · subst hab
      rw [if_neg (lt_irrefl a), if_pos rfl] at h1 h2
      exact clLt_asymm as bs h1 h2
    · rw [if_neg (lt_asymm hab), if_neg (fun he => absurd he.symm (ne_of_lt hab))] at h1
      exact absurd h1 (by simp)

theorem clLt_trans : ∀ as bs cs : List Char,
    clLt as bs = true → clLt bs cs = true → clLt as cs = true
  | [], _ :: _, _ :: _, _, _ => rfl
  | a :: as, b :: bs, c :: cs, h1, h2 => by
    simp only [clLt] at h1 h2 ⊢
    by_cases hab : a < b
    · by_cases hbc : b < c
      · rw [if_pos (lt_trans hab hbc)]
      · rw [if_neg hbc] at h2
        by_cases hbc2 : b = c
        · subst hbc2; rw [if_pos hab]
        · rw [if_neg hbc2] at h2; exact absurd h2 (by simp)
    · rw [if_neg hab] at h1
      by_cases hab2 : a = b
      · subst hab2
        rw [if_pos rfl] at h1
        by_cases hac : a < c
        · rw [if_pos hac]
        · rw [if_neg hac] at h2 ⊢
          by_cases hac2 : a = c
          · subst hac2; rw [if_pos rfl] at h2 ⊢; exact clLt_trans as bs cs h1 h2
          · rw [if_neg hac2] at h2; exact absurd h2 (by simp)
      · rw [if_neg hab2] at h1; exact absurd h1 (by simp)

theorem sLe_total (a b : String) : sLe a b ∨ sLe b a := by
  rcases clLt_connex a.data b.data with h | h | h
  · exact Or.inl (by simp [sLe, strLeB, h])
  · exact Or.inr (by simp [sLe, strLeB, h])
  · exact Or.inl (by simp [sLe, strLeB, String.ext h])

theorem sLe_antisymm (a b : String) (h1 : sLe a b) (h2 : sLe b a) : a = b := by
  simp only [sLe, strLeB, Bool.or_eq_true, beq_iff_eq] at h1 h2
  rcases h1 with h1 | h1
  · rcases h2 with h2 | h2
    · exact absurd h2 (by intro hc; exact clLt_asymm _ _ h1 hc)
    · exact h2.symm
  · exact h1

theorem sLe_trans (a b c : String) (h1 : sLe a b) (h2 : sLe b c) : sLe a c := by
  simp only [sLe, strLeB, Bool.or_eq_true, beq_iff_eq] at h1 h2 ⊢
  rcases h1 with h1 | h1
  · rcases h2 with h2 | h2
    · exact Or.inl (clLt_trans _ _ _ h1 h2)
    · subst h2; exact Or.inl h1
  · subst h1; exact h2

theorem pyInsert_perm (a : String) : ∀ l : List String, (pyInsert a l).Perm (a :: l)
  | [] => List.Perm.refl _
  | b :: bs => by
    unfold pyInsert
    by_cases h : strLeB a b = true
    · rw [if_pos h]
    · rw [if_neg h]
      exact ((pyInsert_perm a bs).cons b).trans (List.Perm.swap a b bs)

theorem sortS_perm : ∀ l : List String, (sortS l).Perm l
  | [] => List.Perm.refl _
  | a :: as => (pyInsert_perm a (sortS as)).trans ((sortS_perm as).cons a)

theorem pyInsert_sorted (a : String) : ∀ l : List String,
    List.Sorted sLe l → List.Sorted sLe (pyInsert a l)
  | [], _ => by simp [pyInsert]
  | b :: bs, h => by
    rw [List.sorted_cons] at h
    unfold pyInsert
    by_cases hab : strLeB a b = true
    · rw [if_pos hab]
      rw [List.sorted_cons]
      refine ⟨?_, List.sorted_cons.mpr h⟩
      intro x hx
      rcases List.mem_cons.mp hx with hx | hx
      · subst hx; exact hab
      · exact sLe_trans a b x hab (h.1 x hx)
    · rw [if_neg hab]
      rw [List.sorted_cons]
      have hba : sLe b a := (sLe_total a b).resolve_left (fun hc => hab hc)
      refine ⟨?_, pyInsert_sorted a bs h.2⟩
      intro x hx
      rcases List.mem_cons.mp ((pyInsert_perm a bs).mem_iff.mp hx) with hx2 | hx2
      · subst hx2; exact hba
      · exact h.1 x hx2

theorem sortS_sorted : ∀ l : List String, List.Sorted sLe (sortS l)
  | [] => by simp [sortS]
  | a :: as => pyInsert_sorted a (sortS as) (sortS_sorted as)

theorem sortS_eq_iff_perm (a b : List String) : sortS a = sortS b ↔ a.Perm b := by
  constructor
  · intro h
    exact ((sortS_perm a).symm.trans (h ▸ sortS_perm b))
  · intro h
    haveI : IsAntisymm String sLe := ⟨sLe_antisymm⟩
    exact List.eq_of_perm_of_sorted
      (((sortS_perm a).trans h).trans (sortS_perm b).symm)
      (sortS_sorted a) (sortS_sorted b)

theorem uuidOk_truthy (i : String) (h : uuidOk i = true) : optStrTruthy (some i) = true := by
  simp only [optStrTruthy, bne_iff_ne, ne_eq]
  intro he
  subst he
  exact absurd h (by decide)

theorem queryResolve_ok_inv (get : String → Option Obj) (nm : String) (i : String)
    (h : queryResolve get nm = .ok i) :
    ∃ o, get nm = some o ∧ o.lookup ("id") = some i ∧ uuidOk i = true := by
  unfold queryResolve at h
  split at h
  · simp at h
  rename_i o ho
  split at h
  · simp at h
  rename_i j hj
  split at h
  · rename_i hu
    injection h with h2
    subst h2
    exact ⟨o, ho, hj, hu⟩
  · simp at h

theorem queryResolve_error_inv (get : String → Option Obj) (nm : String) (e : PyErr)
    (h : queryResolve get nm = .error e) :
    (∃ m, e = .attributeError m) ∨ (∃ m, e = .typeError m) ∨
    e = .valueError ("badly formed hexadecimal UUID string") := by
  unfold queryResolve at h
  split at h
  · injection h with h2; exact Or.inl ⟨_, h2.symm⟩
  split at h
  · injection h with h2; exact Or.inr (Or.inl ⟨_, h2.symm⟩)
  split at h
  · simp at h
  · injection h with h2; exact Or.inr (Or.inr h2.symm)

theorem resolveOpt_ok_inv (get : String → Option Obj) (nm : Option String) (o : Option String)
    (h : resolveOpt get nm = .ok o) :
    (optStrTruthy nm = false ∧ o = none) ∨
    (optStrTruthy nm = true ∧
      ∃ obj i, get (nm.getD ("")) = some obj ∧ obj.lookup ("id") = some i ∧
        uuidOk i = true ∧ o = some i) := by
  unfold resolveOpt at h
  split at h
  · rename_i ht
    right
    refine ⟨ht, ?_⟩
    cases hq : queryResolve get (nm.getD ("")) with
    | error e => rw [hq] at h; simp [Except.map] at h
    | ok i =>
      rw [hq] at h
      simp only [Except.map] at h
      injection h with h2
      obtain ⟨obj, h3, h4, h5⟩ := queryResolve_ok_inv get (nm.getD ("")) i hq
      exact ⟨obj, i, h3, h4, h5, h2.symm⟩
  · rename_i ht
    injection h with h2
    exact Or.inl ⟨Bool.not_eq_true _ ▸ (by simpa using ht), h2.symm⟩

theorem resolveOpt_error_inv (get : String → Option Obj) (nm : Option String) (e : PyErr)
    (h : resolveOpt get nm = .error e) :
    (∃ m, e = .attributeError m) ∨ (∃ m, e = .typeError m) ∨
    e = .valueError ("badly formed hexadecimal UUID string") := by
  unfold resolveOpt at h
  split at h
  · cases hq : queryResolve get (nm.getD ("")) with
    | error e2 =>
      rw [hq] at h
      simp only [Except.map] at h
      injection h with h2
      exact h2 ▸ queryResolve_error_inv get (nm.getD ("")) e2 hq
    | ok i => rw [hq] at h; simp [Except.map] at h
  · simp at h

theorem walkData_error_inv (get : String → Page) :
    ∀ (fuel : Nat) (p : Page) (e : PyErr), walkData get fuel p = .error e → e = .divergent := by
  intro fuel
  induction fuel with
  | zero =>
    intro p e h
    unfold walkData at h
    split at h
    · simp at h
    · injection h with h2; exact h2.symm
  | succ f ih =>
    intro p e h
    unfold walkData at h
    split at h
    · simp at h
    · rename_i cur hcur
      simp only [] at h
      cases hw : walkData get f (get (pyStripSlash cur)) with
      | error e2 =>
        rw [hw] at h
        simp only [Except.map] at h
        injection h with h2
        exact h2 ▸ ih (get (pyStripSlash cur)) e2 hw
      | ok rest => rw [hw] at h; simp [Except.map] at h

theorem plugin_query_ok_inv (env : PluginEnv) (fuel : Nat)
    (nm s r c pid : Option String) (l : List Plugin)
    (h : plugin_query env fuel nm s r c pid = .ok l) :
    ∃ sid rid cid rest,
      resolveOpt env.serviceGet s = .ok sid ∧
      resolveOpt env.routeGet r = .ok rid ∧
      resolveOpt env.consumerGet c = .ok cid ∧
      walkData env.pageGet fuel (env.pageGet (joinUri (queryUri s r c pid))) = .ok rest ∧
      l = ((env.pageGet (joinUri (queryUri s r c pid))).data ++ rest).filter
            (pluginMatches nm sid rid cid) := by
  unfold plugin_query at h
  split at h
  · simp at h
  split at h
  · simp at h
  rename_i sid hs
  split at h
  · simp at h
  rename_i rid hr
  split at h
  · simp at h
  rename_i cid hc
  simp only [] at h
  split at h
  · simp at h
  rename_i rest hw
  injection h with h2
  exact ⟨sid, rid, cid, rest, hs, hr, hc, hw, h2.symm⟩

theorem plugin_query_error_inv (env : PluginEnv) (fuel : Nat)
    (nm s r c pid : Option String) (e : PyErr)
    (h : plugin_query env fuel nm s r c pid = .error e) :
    (pid = none ∧ nm = none ∧ e = .valueError ("Need at least one of plugin_id or name")) ∨
    (∃ m, e = .attributeError m) ∨ (∃ m, e = .typeError m) ∨
    e = .valueError ("badly formed hexadecimal UUID string") ∨
    e = .divergent := by
  unfold plugin_query at h
  split at h
  · rename_i hcond
    injection h with h2
    exact Or.inl ⟨hcond.1, hcond.2, h2.symm⟩
  split at h
  · rename_i e2 he
    injection h with h2
    rcases resolveOpt_error_inv _ _ _ he with h3 | h3 | h3
    · exact Or.inr (Or.inl (h2 ▸ h3))
    · exact Or.inr (Or.inr (Or.inl (h2 ▸ h3)))
    · exact Or.inr (Or.inr (Or.inr (Or.inl (h2 ▸ h3))))
  split at h
  · rename_i e2 he
    injection h with h2
    rcases resolveOpt_error_inv _ _ _ he with h3 | h3 | h3
    · exact Or.inr (Or.inl (h2 ▸ h3))
    · exact Or.inr (Or.inr (Or.inl (h2 ▸ h3)))
    · exact Or.inr (Or.inr (Or.inr (Or.inl (h2 ▸ h3))))
  split at h
  · rename_i e2 he
    injection h with h2
    rcases resolveOpt_error_inv _ _ _ he with h3 | h3 | h3
    · exact Or.inr (Or.inl (h2 ▸ h3))
    · exact Or.inr (Or.inr (Or.inl (h2 ▸ h3)))
    · exact Or.inr (Or.inr (Or.inr (Or.inl (h2 ▸ h3))))
  simp only [] at h
  split at h
  · rename_i e2 he
    injection h with h2
    exact Or.inr (Or.inr (Or.inr (Or.inr (h2 ▸ walkData_error_inv _ _ _ _ he))))
  · simp at h

/-- C10: calling `plugin_query` with both `name` and `plugin_id` equal to
`None` raises the precondition `ValueError` before any request is made (the
result is that error for every environment and fuel), and supplying at
least one of the two never produces that particular error. -/
theorem c10_query_precondition (env : PluginEnv) (fuel : Nat)
    (nm s r c pid : Option String) (h : nm ≠ none ∨ pid ≠ none) :
    plugin_query env fuel none s r c none
        = .error (.valueError ("Need at least one of plugin_id or name")) ∧
    plugin_query env fuel nm s r c pid
        ≠ .error (.valueError ("Need at least one of plugin_id or name")) := by
  constructor
  · unfold plugin_query
    rw [if_pos ⟨rfl, rfl⟩]
  · intro hc
    rcases plugin_query_error_inv env fuel nm s r c pid _ hc with h2 | ⟨m, h2⟩ | ⟨m, h2⟩ | h2 | h2
    · rcases h with h | h
      · exact h h2.2.1
      · exact h h2.1
    · exact PyErr.noConfusion h2
    · exact PyErr.noConfusion h2
    · exact absurd (PyErr.valueError.inj h2) (by decide)
    · exact PyErr.noConfusion h2

/-- C10 witness: the theorem applied at a concrete query that supplies a
name. -/
theorem c10_query_precondition_witness :
    ((some ("rate-limiting") : Option String) ≠ none ∨ (none : Option String) ≠ none) ∧
    (plugin_query envW 0 none none none none none
        = .error (.valueError ("Need at least one of plugin_id or name")) ∧
     plugin_query envW 0 (some ("rate-limiting")) none none none none
        ≠ .error (.valueError ("Need at least one of plugin_id or name"))) :=
  ⟨Or.inl (by decide),
   c10_query_precondition envW 0 (some ("rate-limiting")) none none none none (Or.inl (by decide))⟩

/-- C4: the claim describes the intended behaviour (spec section 4.5,
ResolveBindings): a name that fails to resolve should raise the fatal
`ValueError` asking whether the resource has been created. The source of
`plugin_query` contains exactly that raise, but only after having already
called `.get` on the resolver result, so when the resolver returns `None`
the operation dies with `AttributeError` instead and the `ValueError` is
dead code; `plugin_apply` checks before dereferencing but its message also
lacks the question. This theorem evaluates both functions at the failing
input. -/
theorem c4_resolver_not_found_behavior :
    plugin_query env4 0 (some ("rate-limiting")) (some ("svc1")) none none none
        = .error (.attributeError ("NoneType object has no attribute get")) ∧
    plugin_apply env4 0 ("rate-limiting") none (some ("svc1")) none none
        = .error (.valueError ("Service svc1 not found")) := by
  constructor
  · rfl
  · rfl

/-- C9 counterexample: `_post` with a per-call header dict (exactly what
`route_apply` passes) mutates the adapter object: `self.headers.update(headers)`
persists the content-type header in the adapter state, so it is false that
no request method modifies the header map. -/
theorem c9_counterexample :
    (kong_post st0 tenv0 [some ("routes")] none
        (some [(("content-type"), ("application/json"))])).fst ≠ st0 := by

  decide

/-- C9 amended: `_get`, `_put` and `_delete` leave the adapter state
unchanged, and so do `_post` and `_patch` when called without extra
headers; `_post` and `_patch` with extra headers change the state exactly
by merging those headers into the stored header map (`hdrMerge`), where
they persist for later calls; nothing else is modified. -/
theorem c9_transport_state_effects (st : KongState) (env : TransportEnv)
    (uri : List (Option String)) (data : Option Val) (hs : List (String × String)) :
    (kong_get st env uri).fst = st ∧
    (kong_put st env uri data).fst = st ∧
    (kong_delete st env uri).fst = st ∧
    (kong_post st env uri data none).fst = st ∧
    (kong_patch st env uri data none).fst = st ∧
    (kong_post st env uri data (some hs)).fst = hdrMerge st (some hs) ∧
    (kong_patch st env uri data (some hs)).fst = hdrMerge st (some hs) ∧
    hdrMerge st none = st :=
  ⟨rfl, rfl, rfl, rfl, rfl, rfl, rfl, rfl⟩

/-- C6 counterexample: a server-side failure (status 500, not a 404-class
not-found) is also silently converted to `None` by `route_get`, because the
source catches every `requests.HTTPError`, not only the not-found class. -/
theorem c6_counterexample :
    route_get env500 ("rt1") = .ok none ∧ (500 : Nat) ≠ 404 :=
  ⟨rfl, by decide⟩

/-- C6 amended: `route_get` returns the resource body on any successful
status, returns `None` on every unsuccessful HTTP status (the whole 4xx/5xx
range raised by `raise_for_status`, not specifically 404), and propagates
transport failures below the HTTP layer (which are not `HTTPError`). -/
theorem c6_route_get_behavior (env : HttpEnv) (route_id : String) :
    route_get env route_id =
      (match env.get (joinUri [("routes"), route_id]) with
       | .resp code body => if 400 ≤ code then .ok none else .ok (some body)
       | .netFail m => .error (.connectionError m)) := by
  unfold route_get kget
  cases h : env.get (joinUri [("routes"), route_id]) with
  | resp code body =>
    by_cases hc : 400 ≤ code
    · simp [hc]
    · simp [hc]
  | netFail m => rfl

/-- C8 counterexample: the loop follows the cursor with slashes stripped
from both ends (Python `strip`), not only the leading slash as the claim
states: on a cursor `/p/` the code fetches `p` while the claim predicts
`p/`, and the two produce different data. -/
theorem c8_counterexample :
    walkData gC8 1 p0C8 = .ok [pY] ∧
    specWalkData gC8 1 p0C8 = .ok [pX] ∧
    pY ≠ pX :=
  ⟨rfl, rfl, by decide⟩

/-- C8 amended: for every page function and first page whose cursor chain
reaches a falsy `next` after `k` hops (following each truthy cursor as a
relative path with leading and trailing slashes stripped), the pagination
loop of `plugin_query` terminates within any fuel of at least `k` and
returns the concatenation, in page order, of the `data` arrays of the
followed pages (`plugin_query` prepends the first page's own data). -/
theorem c8_pagination_loop (get : String → Page) (k : Nat) :
    ∀ (p : Page) (fuel : Nat), k ≤ fuel →
      nextTruthy ((hop get)^[k] p).next = none →
      walkData get fuel p = .ok (((chainPages get k p).map Page.data).flatten) := by
  induction k with
  | zero =>
    intro p fuel _ hterm
    simp only [Function.iterate_zero, id] at hterm
    unfold walkData
    rw [hterm]
    simp [chainPages]
  | succ k ih =>
    intro p fuel hk hterm
    cases hnext : nextTruthy p.next with
    | none =>
      unfold walkData
      rw [hnext]
      unfold chainPages
      rw [hnext]
      simp
    | some cur =>
      have hp : hop get p = get (pyStripSlash cur) := by
        unfold hop; rw [hnext]
      obtain ⟨f, rfl⟩ : ∃ f, fuel = f + 1 :=
        ⟨fuel - 1, (Nat.succ_pred_eq_of_pos (Nat.lt_of_lt_of_le (Nat.succ_pos k) hk)).symm⟩
      have hk2 : k ≤ f := Nat.succ_le_succ_iff.mp hk
      have hterm2 : nextTruthy ((hop get)^[k] (get (pyStripSlash cur))).next = none := by
        rw [Function.iterate_succ_apply, hp] at hterm
        exact hterm
      have hrec := ih (get (pyStripSlash cur)) f hk2 hterm2
      unfold walkData
      rw [hnext]
      unfold chainPages
      rw [hnext]
      simp only [hrec, Except.map, List.map_cons, List.flatten_cons]

/-- C8 witness: the amended pagination theorem applied to the concrete
one-hop chain of `gC8`. -/
theorem c8_pagination_loop_witness :
    (1 ≤ 1 ∧ nextTruthy ((hop gC8)^[1] p0C8).next = none) ∧
    walkData gC8 1 p0C8 = .ok (((chainPages gC8 1 p0C8).map Page.data).flatten) :=
  ⟨⟨by decide, by decide⟩, c8_pagination_loop gC8 1 p0C8 1 (by decide) (by decide)⟩

theorem routeMatch_iff_perm (r : Route) (hosts paths methods protocols : List String) :
    routeMatch r hosts paths methods protocols = true ↔
      ((orEmpty r.hosts).Perm hosts ∧ (orEmpty r.paths).Perm paths ∧
       (orEmpty r.methods).Perm methods ∧ (orEmpty r.protocols).Perm protocols) := by
  simp only [routeMatch, Bool.and_eq_true, beq_iff_eq, sortS_eq_iff_perm]
  tauto

/-- C3 counterexample: set equality is not the match criterion. The
existing hosts list `[a, a]` and the desired `[a]` are equal as sets
(same members), yet `route_query` reports no match, because the source
compares `sorted` lists, which distinguishes multiplicities. -/
theorem c3_counterexample :
    (∀ x, x ∈ [("a"), ("a")] ↔ x ∈ [("a")]) ∧
    route_query envDup ("s1") [("a")] [] [] [] = .ok none :=
  ⟨by simp, rfl⟩

/-- C3 amended: an existing Route matches iff each of its hosts, paths,
methods and protocols collections is a permutation of (equal as a
multiset to) the corresponding desired collection, with absent fields
treated as empty; order-independent but multiplicity-sensitive. More than
one match raises the duplicate-routes error, exactly one match is
returned, and zero matches returns `None`. -/
theorem c3_route_query_matching (env : RouteEnv) (service_name : String)
    (hosts paths methods protocols : List String)
    (so : Obj) (hsvc : env.serviceGet service_name = some so) :
    (∀ r ∈ env.routeList service_name,
      (routeMatch r hosts paths methods protocols = true ↔
        ((orEmpty r.hosts).Perm hosts ∧ (orEmpty r.paths).Perm paths ∧
         (orEmpty r.methods).Perm methods ∧ (orEmpty r.protocols).Perm protocols))) ∧
    (1 < ((env.routeList service_name).filter
            (fun r => routeMatch r hosts paths methods protocols)).length →
      route_query env service_name hosts paths methods protocols
        = .error (.valueError ("Duplicate routes found. Clean up manually first"))) ∧
    (∀ r0, (env.routeList service_name).filter
            (fun r => routeMatch r hosts paths methods protocols) = [r0] →
      route_query env service_name hosts paths methods protocols = .ok (some r0)) ∧
    ((env.routeList service_name).filter
        (fun r => routeMatch r hosts paths methods protocols) = [] →
      route_query env service_name hosts paths methods protocols = .ok none) := by
  refine ⟨fun r _ => routeMatch_iff_perm r hosts paths methods protocols, ?_, ?_, ?_⟩
  · intro hlen
    unfold route_query
    rw [hsvc]
    simp only []
    rw [if_pos hlen]
  · intro r0 hms
    unfold route_query
    rw [hsvc]
    simp only [hms]
    rw [if_neg (by simp)]
    rfl
  · intro hms
    unfold route_query
    rw [hsvc]
    simp only [hms]
    rw [if_neg (by simp)]
    rfl

/-- C3 witness: the amended matching theorem applied to a Service with one
Route with hosts `[a, b]`, queried in the reversed order `[b, a]`; the
single filtered match is returned. -/
theorem c3_route_query_matching_witness :
    envAB.serviceGet ("s1") = some [(("id"), sidA)] ∧
    (∀ r0, (envAB.routeList ("s1")).filter
            (fun r => routeMatch r [("b"), ("a")] [] [] []) = [r0] →
      route_query envAB ("s1") [("b"), ("a")] [] [] [] = .ok (some r0)) ∧
    route_query envAB ("s1") [("b"), ("a")] [] [] [] = .ok (some rAB) :=
  ⟨rfl,
   (c3_route_query_matching envAB ("s1") [("b"), ("a")] [] [] [] [(("id"), sidA)] rfl).2.2.1,
   (c3_route_query_matching envAB ("s1") [("b"), ("a")] [] [] [] [(("id"), sidA)] rfl).2.2.1 rAB rfl⟩

theorem string_append_inj (p a b : String) (h : p ++ a = p ++ b) : a = b := by
  have h2 : (p ++ a).data = (p ++ b).data := by rw [h]
  rw [String.data_append, String.data_append] at h2
  exact String.ext (List.append_cancel_left h2)

theorem config_take (k : String) : ((("config.") ++ k)).data.take 7 = (("config.") : String).data := by
  rw [String.data_append]
  rfl

theorem cfg_pre_ne (k t : String) (ht : t.data.take 7 ≠ (("config.") : String).data) :
    ("config.") ++ k ≠ t :=
  fun he => ht (he ▸ config_take k)

theorem cfg_pre_ne_name (k : String) : ("config.") ++ k ≠ ("name") :=
  cfg_pre_ne k ("name") (by decide)

theorem cfg_pre_ne_sid (k : String) : ("config.") ++ k ≠ ("service.id") :=
  cfg_pre_ne k ("service.id") (by decide)

theorem cfg_pre_ne_rid (k : String) : ("config.") ++ k ≠ ("route.id") :=
  cfg_pre_ne k ("route.id") (by decide)

theorem cfg_pre_ne_cid (k : String) : ("config.") ++ k ≠ ("consumer.id") :=
  cfg_pre_ne k ("consumer.id") (by decide)

theorem setKey_fresh {α : Type} (d : List (String × α)) (k : String) (v : α)
    (h : ∀ kv ∈ d, kv.fst ≠ k) : setKey d k v = d ++ [(k, v)] := by
  unfold setKey
  rw [if_neg]
  simp only [List.any_eq_true, beq_iff_eq, not_exists, not_and]
  exact fun kv hkv => h kv hkv

theorem dictUpdate_fresh {α : Type} :
    ∀ (u d : List (String × α)),
      (∀ kv ∈ u, ∀ kv2 ∈ d, kv2.fst ≠ kv.fst) → (u.map Prod.fst).Nodup →
      dictUpdate d u = d ++ u
  | [], d, _, _ => by simp [dictUpdate]
  | (k, v) :: u, d, hfresh, hnd => by
    have h1 : setKey d k v = d ++ [(k, v)] :=
      setKey_fresh d k v (fun kv hkv => hfresh (k, v) (List.mem_cons_self _ _) kv hkv)
    have hnd2 : (u.map Prod.fst).Nodup := (List.nodup_cons.mp hnd).2
    have hk : k ∉ u.map Prod.fst := (List.nodup_cons.mp hnd).1
    have hfresh2 : ∀ kv ∈ u, ∀ kv2 ∈ d ++ [(k, v)], kv2.fst ≠ kv.fst := by
      intro kv hkv kv2 hkv2
      rcases List.mem_append.mp hkv2 with h2 | h2
      · exact hfresh kv (List.mem_cons_of_mem _ hkv) kv2 h2
      · rcases List.mem_singleton.mp h2 with rfl
        intro he
        exact hk (by rw [show k = kv.fst from he]; exact List.mem_map_of_mem Prod.fst hkv)
    calc dictUpdate d ((k, v) :: u)
        = dictUpdate (setKey d k v) u := rfl
      _ = (d ++ [(k, v)]) ++ u := by rw [h1]; exact dictUpdate_fresh u (d ++ [(k, v)]) hfresh2 hnd2
      _ = d ++ ((k, v) :: u) := by simp

theorem lookup_append {α : Type} (a : String) :
    ∀ l m : List (String × α), List.lookup a (l ++ m) = (List.lookup a l).or (List.lookup a m)
  | [], m => by simp [List.lookup]
  | (k, v) :: l, m => by
    by_cases h : a == k
    · simp [List.lookup, h]
    · simp only [List.cons_append, List.lookup, h]
      exact lookup_append a l m

theorem lookup_prefix_mem (cfg : List (String × Val)) (k : String) (v : Val)
    (hnd : (cfg.map Prod.fst).Nodup) (hmem : (k, v) ∈ cfg) :
    List.lookup (("config.") ++ k) (prepare_config cfg) = some v := by
  induction cfg with
  | nil => exact absurd hmem (List.not_mem_nil _)
  | cons kv cfg ih =>
    rcases List.mem_cons.mp hmem with rfl | hmem2
    · simp [prepare_config, List.lookup]
    · have hk : ("config.") ++ k ≠ ("config.") ++ kv.fst := by
        intro he
        have : k = kv.fst := string_append_inj _ _ _ he
        exact (List.nodup_cons.mp hnd).1 (this ▸ List.mem_map_of_mem Prod.fst hmem2)
      simp only [prepare_config, List.map_cons, List.lookup, beq_eq_false_iff_ne.mpr hk]
      exact ih (List.nodup_cons.mp hnd).2 hmem2

theorem lookup_prefix_none (cfg : List (String × Val)) (t : String)
    (h : ∀ kv ∈ cfg, t ≠ ("config.") ++ kv.fst) :
    List.lookup t (prepare_config cfg) = none := by
  induction cfg with
  | nil => rfl
  | cons kv cfg ih =>
    simp only [prepare_config, List.map_cons, List.lookup,
      beq_eq_false_iff_ne.mpr (h kv (List.mem_cons_self _ _))]
    exact ih (fun kv2 h2 => h kv2 (List.mem_cons_of_mem _ h2))

theorem applyResolveOpt_ok_inv (get : String → Option Obj) (kind : String)
    (nm : Option String) (o : Option String)
    (h : applyResolveOpt get kind nm = .ok o) :
    (optStrTruthy nm = false ∧ o = none) ∨
    (optStrTruthy nm = true ∧
      ∃ obj i, get (nm.getD ("")) = some obj ∧ obj.lookup ("id") = some i ∧ o = some i) := by
  unfold applyResolveOpt at h
  split at h
  · rename_i ht
    split at h
    · simp at h
    rename_i obj hobj
    split at h
    · simp at h
    rename_i i hi
    injection h with h2
    exact Or.inr ⟨ht, obj, i, hobj, hi, h2.symm⟩
  · rename_i ht
    injection h with h2
    exact Or.inl ⟨by simpa using ht, h2.symm⟩

theorem prepare_config_key_shape (cfg : List (String × Val)) :
    ∀ kv ∈ prepare_config cfg, ∃ k0, k0 ∈ cfg.map Prod.fst ∧ kv.fst = ("config.") ++ k0 := by
  intro kv h
  rcases List.mem_map.mp h with ⟨kv0, hkv0, rfl⟩
  exact ⟨kv0.fst, List.mem_map_of_mem Prod.fst hkv0, rfl⟩

theorem prepare_config_nodup (cfg : List (String × Val))
    (hnd : (cfg.map Prod.fst).Nodup) : ((prepare_config cfg).map Prod.fst).Nodup := by
  have he : (prepare_config cfg).map Prod.fst
      = (cfg.map Prod.fst).map (fun k => ("config.") ++ k) := by
    simp [prepare_config, List.map_map]
  rw [he]
  exact hnd.map (fun a b h => string_append_inj _ a b h)

theorem fresh_append {α : Type} (d e : List (String × α)) (k : String)
    (hd : ∀ kv ∈ d, kv.fst ≠ k) (he : ∀ kv ∈ e, kv.fst ≠ k) :
    ∀ kv ∈ d ++ e, kv.fst ≠ k := by
  intro kv hkv
  rcases List.mem_append.mp hkv with h | h
  · exact hd kv h
  · exact he kv h

theorem fresh_single {α : Type} (k0 : String) (v0 : α) (k : String) (h : k0 ≠ k) :
    ∀ kv ∈ [(k0, v0)], kv.fst ≠ k := by
  intro kv hkv
  rcases List.mem_singleton.mp hkv with rfl
  exact h

theorem applyPayload_shape (env : PluginEnv) (name : String) (cfg : List (String × Val))
    (s r c : Option String) (sid rid cid : Option String)
    (hnd : (cfg.map Prod.fst).Nodup)
    (hs : applyResolveOpt env.serviceGet ("Service") s = .ok sid)
    (hr : applyResolveOpt env.routeGet ("Route") r = .ok rid)
    (hc : applyResolveOpt env.consumerGet ("Consumer") c = .ok cid) :
    applyPayload env name (some cfg) s r c =
      .ok (((("name"), Val.str name) :: prepare_config cfg)
            ++ idEntry ("service.id") sid ++ idEntry ("route.id") rid
            ++ idEntry ("consumer.id") cid) := by
  have hbase : dictUpdate [(("name"), Val.str name)] (prepare_config cfg)
      = (((("name"), Val.str name) : String × Val) :: prepare_config cfg) := by
    have hf : ∀ kv ∈ prepare_config cfg, ∀ kv2 ∈ [((("name") : String), Val.str name)],
        kv2.fst ≠ kv.fst := by
      intro kv hkv kv2 hkv2
      rcases List.mem_singleton.mp hkv2 with rfl
      rcases prepare_config_key_shape cfg kv hkv with ⟨k0, _, hk⟩
      rw [hk]
      exact fun he => cfg_pre_ne_name k0 he.symm
    rw [dictUpdate_fresh (prepare_config cfg) _ hf (prepare_config_nodup cfg hnd)]
    simp
  have hcons : ∀ t : String, t.data.take 7 ≠ (("config.") : String).data → ("name") ≠ t →
      ∀ kv ∈ (((("name"), Val.str name) : String × Val) :: prepare_config cfg), kv.fst ≠ t := by
    intro t ht hnm kv hkv
    rcases List.mem_cons.mp hkv with rfl | hkv2
    · exact hnm
    · rcases prepare_config_key_shape cfg kv hkv2 with ⟨k0, _, hk⟩
      rw [hk]
      exact cfg_pre_ne k0 t ht
  have hn_s := hcons ("service.id") (by decide) (by decide)
  have hn_r := hcons ("route.id") (by decide) (by decide)
  have hn_c := hcons ("consumer.id") (by decide) (by decide)
  unfold applyPayload
  rw [hs, hr, hc]
  cases sid with
  | none =>
    cases rid with
    | none =>
      cases cid with
      | none => simp only [hbase, idEntry, List.append_nil]
      | some i3 =>
        simp only [hbase, idEntry, List.append_nil]
        rw [setKey_fresh _ _ _ hn_c]
    | some i2 =>
      cases cid with
      | none =>
        simp only [hbase, idEntry, List.append_nil]
        rw [setKey_fresh _ _ _ hn_r]
      | some i3 =>
        simp only [hbase, idEntry, List.append_nil]
        rw [setKey_fresh _ _ _ hn_r,
            setKey_fresh _ _ _ (fresh_append _ _ _ hn_c
              (fresh_single _ _ _ (by decide))),
            List.append_assoc]
  | some i1 =>
    cases rid with
    | none =>
      cases cid with
      | none =>
        simp only [hbase, idEntry, List.append_nil]
        rw [setKey_fresh _ _ _ hn_s]
      | some i3 =>
        simp only [hbase, idEntry, List.append_nil]
        rw [setKey_fresh _ _ _ hn_s,
            setKey_fresh _ _ _ (fresh_append _ _ _ hn_c
              (fresh_single _ _ _ (by decide))),
            List.append_assoc]
    | some i2 =>
      cases cid with
      | none =>
        simp only [hbase, idEntry, List.append_nil]
        rw [setKey_fresh _ _ _ hn_s,
            setKey_fresh _ _ _ (fresh_append _ _ _ hn_r
              (fresh_single _ _ _ (by decide))),
            List.append_assoc]
      | some i3 =>
        simp only [hbase, idEntry]
        rw [setKey_fresh _ _ _ hn_s,
            setKey_fresh _ _ _ (fresh_append _ _ _ hn_r
              (fresh_single _ _ _ (by decide))),
            setKey_fresh _ _ _ (fresh_append _ _ _
              (fresh_append _ _ _ hn_c (fresh_single _ _ _ (by decide)))
              (fresh_single _ _ _ (by decide)))]

theorem lookup_idEntry_ne (t k : String) (o : Option String) (h : t ≠ k) :
    List.lookup t (idEntry k o) = none := by
  cases o with
  | none => rfl
  | some i => simp [idEntry, List.lookup, beq_eq_false_iff_ne.mpr h]

theorem lookup_idEntry_same (k : String) (i : String) :
    List.lookup k (idEntry k (some i)) = some (Val.str i) := by
  simp [idEntry, List.lookup]

theorem plugin_apply_ok_payload (env : PluginEnv) (fuel : Nat) (name : String)
    (config : Option (List (String × Val))) (s r c : Option String) (act : ApplyAction)
    (h : plugin_apply env fuel name config s r c = .ok act) :
    applyPayload env name config s r c = .ok act.payload := by
  unfold plugin_apply at h
  split at h
  · simp at h
  rename_i data hd
  split at h
  · simp at h
  rename_i l hl
  split at h
  · simp at h
  · split at h
    · injection h with h2
      rw [← h2]
      exact hd
    · injection h with h2
      rw [← h2]
      exact hd

theorem applyPayload_ok_inv (env : PluginEnv) (name : String)
    (config : Option (List (String × Val))) (s r c : Option String)
    (data : List (String × Val))
    (h : applyPayload env name config s r c = .ok data) :
    ∃ sid rid cid,
      applyResolveOpt env.serviceGet ("Service") s = .ok sid ∧
      applyResolveOpt env.routeGet ("Route") r = .ok rid ∧
      applyResolveOpt env.consumerGet ("Consumer") c = .ok cid := by
  unfold applyPayload at h
  split at h
  all_goals
    split at h
    · simp at h
    rename_i sid hs
    split at h
    · simp at h
    rename_i rid hr
    split at h
    · simp at h
    rename_i cid hc
    exact ⟨sid, rid, cid, hs, hr, hc⟩

/-- C5: for every `plugin_apply` call with a config mapping (whose keys,
as for any dict that round-trips through the admin API, are distinct and
are not themselves `name`, a `<relation>.id` key, or a `config.`-prefixed
key), the constructed payload contains the plugin name under `name`, every
config entry under its `config.`-prefixed key with the value carried
through unflattened, no bare config key, and the resolved id under
`<relation>.id` for each supplied binding. -/
theorem c5_payload_construction (env : PluginEnv) (fuel : Nat) (name : String)
    (cfg : List (String × Val)) (s r c : Option String) (act : ApplyAction)
    (hnd : (cfg.map Prod.fst).Nodup)
    (hkeys : ∀ kv ∈ cfg, kv.fst ≠ ("name") ∧ kv.fst ≠ ("service.id") ∧
      kv.fst ≠ ("route.id") ∧ kv.fst ≠ ("consumer.id") ∧
      ∀ kv2 ∈ cfg, kv.fst ≠ ("config.") ++ kv2.fst)
    (happly : plugin_apply env fuel name (some cfg) s r c = .ok act) :
    (act.payload).lookup ("name") = some (Val.str name) ∧
    (∀ kv ∈ cfg, (act.payload).lookup (("config.") ++ kv.fst) = some kv.snd) ∧
    (∀ kv ∈ cfg, (act.payload).lookup kv.fst = none) ∧
    (optStrTruthy s = true → ∃ o i, env.serviceGet (s.getD ("")) = some o ∧
      o.lookup ("id") = some i ∧ (act.payload).lookup ("service.id") = some (Val.str i)) ∧
    (optStrTruthy r = true → ∃ o i, env.routeGet (r.getD ("")) = some o ∧
      o.lookup ("id") = some i ∧ (act.payload).lookup ("route.id") = some (Val.str i)) ∧
    (optStrTruthy c = true → ∃ o i, env.consumerGet (c.getD ("")) = some o ∧
      o.lookup ("id") = some i ∧ (act.payload).lookup ("consumer.id") = some (Val.str i)) := by
  have hpay := plugin_apply_ok_payload env fuel name (some cfg) s r c act happly
  obtain ⟨sid, rid, cid, hs, hr, hc⟩ := applyPayload_ok_inv env name (some cfg) s r c _ hpay
  have hshape0 := applyPayload_shape env name cfg s r c sid rid cid hnd hs hr hc
  rw [hpay] at hshape0
  have hshape : act.payload
      = (((("name"), Val.str name) : String × Val)
          :: (prepare_config cfg ++ (idEntry ("service.id") sid
              ++ (idEntry ("route.id") rid ++ idEntry ("consumer.id") cid)))) := by
    injection hshape0 with h2
    rw [h2]
    simp [List.append_assoc]
  refine ⟨?_, ?_, ?_, ?_, ?_, ?_⟩
  · rw [hshape]
    simp [List.lookup]
  · intro kv hkv
    rw [hshape]
    simp only [List.lookup, beq_eq_false_iff_ne.mpr (cfg_pre_ne_name kv.fst), lookup_append]
    rw [lookup_prefix_mem cfg kv.fst kv.snd hnd hkv]
    rfl
  · intro kv hkv
    obtain ⟨h1, h2, h3, h4, h5⟩ := hkeys kv hkv
    rw [hshape]
    simp only [List.lookup, beq_eq_false_iff_ne.mpr h1, lookup_append]
    rw [lookup_prefix_none cfg kv.fst h5,
        lookup_idEntry_ne kv.fst _ sid h2,
        lookup_idEntry_ne kv.fst _ rid h3,
        lookup_idEntry_ne kv.fst _ cid h4]
    rfl
  · intro ht
    rcases applyResolveOpt_ok_inv _ _ s sid hs with ⟨hf, _⟩ | ⟨_, o, i, ho, hi, hsome⟩
    · rw [ht] at hf; exact absurd hf (by simp)
    · refine ⟨o, i, ho, hi, ?_⟩
      subst hsome
      rw [hshape]
      simp only [List.lookup, beq_eq_false_iff_ne.mpr (by decide : ("service.id" : String) ≠ ("name")).symm, lookup_append]
      rw [lookup_prefix_none cfg ("service.id") (fun kv2 _ => Ne.symm (cfg_pre_ne_sid kv2.fst))]
      simp [idEntry, List.lookup]
  · intro ht
    rcases applyResolveOpt_ok_inv _ _ r rid hr with ⟨hf, _⟩ | ⟨_, o, i, ho, hi, hsome⟩
    · rw [ht] at hf; exact absurd hf (by simp)
    · refine ⟨o, i, ho, hi, ?_⟩
      subst hsome
      rw [hshape]
      simp only [List.lookup, beq_eq_false_iff_ne.mpr (by decide : ("route.id" : String) ≠ ("name")).symm, lookup_append]
      rw [lookup_prefix_none cfg ("route.id") (fun kv2 _ => Ne.symm (cfg_pre_ne_rid kv2.fst)),
          lookup_idEntry_ne ("route.id") ("service.id") sid (by decide)]
      simp [idEntry, List.lookup]
  · intro ht
    rcases applyResolveOpt_ok_inv _ _ c cid hc with ⟨hf, _⟩ | ⟨_, o, i, ho, hi, hsome⟩
    · rw [ht] at hf; exact absurd hf (by simp)
    · refine ⟨o, i, ho, hi, ?_⟩
      subst hsome
      rw [hshape]
      simp only [List.lookup, beq_eq_false_iff_ne.mpr (by decide : ("consumer.id" : String) ≠ ("name")).symm, lookup_append]
      rw [lookup_prefix_none cfg ("consumer.id") (fun kv2 _ => Ne.symm (cfg_pre_ne_cid kv2.fst)),
          lookup_idEntry_ne ("consumer.id") ("service.id") sid (by decide),
          lookup_idEntry_ne ("consumer.id") ("route.id") rid (by decide)]
      simp [idEntry, List.lookup]

/-- C5 witness: the payload theorem applied to the spec example
`config = (a : 1, b : (c : 2))` with Service binding `svc1` on `envW`. -/
theorem c5_payload_construction_witness :
    ((cfgW.map Prod.fst).Nodup ∧
     (∀ kv ∈ cfgW, kv.fst ≠ ("name") ∧ kv.fst ≠ ("service.id") ∧
        kv.fst ≠ ("route.id") ∧ kv.fst ≠ ("consumer.id") ∧
        ∀ kv2 ∈ cfgW, kv.fst ≠ ("config.") ++ kv2.fst) ∧
     plugin_apply envW 0 ("rate-limiting") (some cfgW) (some ("svc1")) none none = .ok actW) ∧
    ((actW.payload).lookup ("name") = some (Val.str ("rate-limiting")) ∧
     (∀ kv ∈ cfgW, (actW.payload).lookup (("config.") ++ kv.fst) = some kv.snd) ∧
     (∀ kv ∈ cfgW, (actW.payload).lookup kv.fst = none) ∧
     (optStrTruthy (some ("svc1")) = true → ∃ o i, envW.serviceGet ((some ("svc1")).getD ("")) = some o ∧
       o.lookup ("id") = some i ∧ (actW.payload).lookup ("service.id") = some (Val.str i)) ∧
     (optStrTruthy (none : Option String) = true → ∃ o i, envW.routeGet ((none : Option String).getD ("")) = some o ∧
       o.lookup ("id") = some i ∧ (actW.payload).lookup ("route.id") = some (Val.str i)) ∧
     (optStrTruthy (none : Option String) = true → ∃ o i, envW.consumerGet ((none : Option String).getD ("")) = some o ∧
       o.lookup ("id") = some i ∧ (actW.payload).lookup ("consumer.id") = some (Val.str i))) :=
  ⟨⟨by decide, by decide, rfl⟩,
   c5_payload_construction envW 0 ("rate-limiting") cfgW (some ("svc1")) none none actW
     (by decide) (by decide) rfl⟩

/-- C1: after the query step of `plugin_apply`, zero matches cause a POST
of the full payload to the plugins collection (create), exactly one match
causes a PATCH of the full payload against that match's id (update), and
more than one match raises a fatal `ValueError` naming the full
identifying tuple (plugin name, service, route, consumer), never picking
one match arbitrarily; `plugin_delete` raises the analogous ambiguity
`ValueError` (message prefixed with `Found`) on more than one match. -/
theorem c1_decide_create_update_ambiguity (env : PluginEnv) (fuel : Nat) (name : String)
    (cfg : Option (List (String × Val))) (s r c : Option String)
    (l : List Plugin) (data : List (String × Val))
    (hq : plugin_query env fuel (some name) s r c none = .ok l)
    (hd : applyPayload env name cfg s r c = .ok data) :
    (l = [] → plugin_apply env fuel name cfg s r c = .ok (.created data)) ∧
    (∀ p0, l = [p0] → plugin_apply env fuel name cfg s r c = .ok (.updated p0.id data)) ∧
    (1 < l.length →
      plugin_apply env fuel name cfg s r c
        = .error (.valueError (multiMsg ("Multiple Plugin records for name: ") name s r c)) ∧
      plugin_delete env fuel name s r c
        = .error (.valueError (multiMsg ("Found multiple Plugin records for name: ") name s r c))) := by
  refine ⟨?_, ?_, ?_⟩
  · intro hl
    subst hl
    unfold plugin_apply
    rw [hd, hq]
    simp
  · intro p0 hl
    subst hl
    unfold plugin_apply
    rw [hd, hq]
    simp
  · intro hlen
    constructor
    · unfold plugin_apply
      rw [hd, hq]
      simp only [if_pos hlen]
    · unfold plugin_delete
      rw [hq]
      simp only [if_pos hlen]

/-- C1 witness: the decide theorem applied on `envW`, where the query
returns exactly the one bound Plugin `pM`, so the update branch fires. -/
theorem c1_decide_create_update_ambiguity_witness :
    (plugin_query envW 0 (some ("rate-limiting")) (some ("svc1")) (some ("rt1")) (some ("cons1")) none
        = .ok [pM] ∧
     applyPayload envW ("rate-limiting") none (some ("svc1")) (some ("rt1")) (some ("cons1"))
        = .ok dataW1) ∧
    ((([pM] : List Plugin) = [] →
        plugin_apply envW 0 ("rate-limiting") none (some ("svc1")) (some ("rt1")) (some ("cons1"))
          = .ok (.created dataW1)) ∧
     (∀ p0, ([pM] : List Plugin) = [p0] →
        plugin_apply envW 0 ("rate-limiting") none (some ("svc1")) (some ("rt1")) (some ("cons1"))
          = .ok (.updated p0.id dataW1)) ∧
     (1 < ([pM] : List Plugin).length →
        plugin_apply envW 0 ("rate-limiting") none (some ("svc1")) (some ("rt1")) (some ("cons1"))
          = .error (.valueError (multiMsg ("Multiple Plugin records for name: ") ("rate-limiting")
              (some ("svc1")) (some ("rt1")) (some ("cons1")))) ∧
        plugin_delete envW 0 ("rate-limiting") (some ("svc1")) (some ("rt1")) (some ("cons1"))
          = .error (.valueError (multiMsg ("Found multiple Plugin records for name: ") ("rate-limiting")
              (some ("svc1")) (some ("rt1")) (some ("cons1")))))) :=
  ⟨⟨rfl, rfl⟩,
   c1_decide_create_update_ambiguity envW 0 ("rate-limiting") none
     (some ("svc1")) (some ("rt1")) (some ("cons1")) [pM] dataW1 rfl rfl⟩

theorem match_binding_inv (b : Option Obj) (x : Option String)
    (h2 : (optObjTruthy b == optStrTruthy x) = true)
    (h3 : (!(optObjTruthy b && (bindId b != x))) = true) :
    optObjTruthy b = optStrTruthy x ∧ (optObjTruthy b = true → bindId b = x) := by
  refine ⟨beq_iff_eq.mp h2, ?_⟩
  intro hA
  rw [hA] at h3
  simpa using h3

/-- C2: every Plugin returned by `plugin_query` agrees with the query on
binding presence: without a consumer name no returned Plugin has a truthy
consumer binding; with a consumer name every returned Plugin has one, and
its bound id equals the id resolved for that name from the environment.
The same holds independently for the service and the route bindings. -/
theorem c2_binding_presence_symmetry (env : PluginEnv) (fuel : Nat)
    (nm s r c pid : Option String) (l : List Plugin) (p : Plugin)
    (hq : plugin_query env fuel nm s r c pid = .ok l) (hp : p ∈ l) :
    ((optStrTruthy c = false → optObjTruthy p.consumer = false) ∧
     (optStrTruthy c = true → optObjTruthy p.consumer = true ∧
        ∃ o i, env.consumerGet (c.getD ("")) = some o ∧ o.lookup ("id") = some i ∧
          bindId p.consumer = some i)) ∧
    ((optStrTruthy s = false → optObjTruthy p.service = false) ∧
     (optStrTruthy s = true → optObjTruthy p.service = true ∧
        ∃ o i, env.serviceGet (s.getD ("")) = some o ∧ o.lookup ("id") = some i ∧
          bindId p.service = some i)) ∧
    ((optStrTruthy r = false → optObjTruthy p.route = false) ∧
     (optStrTruthy r = true → optObjTruthy p.route = true ∧
        ∃ o i, env.routeGet (r.getD ("")) = some o ∧ o.lookup ("id") = some i ∧
          bindId p.route = some i)) := by
  obtain ⟨sid, rid, cid, rest, hs, hr, hc, _, hl⟩ :=
    plugin_query_ok_inv env fuel nm s r c pid l hq
  subst hl
  have hm := (List.mem_filter.mp hp).2
  simp only [pluginMatches, Bool.and_eq_true] at hm
  obtain ⟨⟨⟨⟨⟨⟨_, hc2⟩, hc3⟩, hs2⟩, hs3⟩, hr2⟩, hr3⟩ := hm
  have hcb := match_binding_inv p.consumer cid hc2 hc3
  have hsb := match_binding_inv p.service sid hs2 hs3
  have hrb := match_binding_inv p.route rid hr2 hr3
  refine ⟨⟨?_, ?_⟩, ⟨?_, ?_⟩, ⟨?_, ?_⟩⟩
  · intro hcf
    rcases resolveOpt_ok_inv _ c cid hc with ⟨_, rfl⟩ | ⟨hct, _, _, _, _, _, rfl⟩
    · simpa using hcb.1
    · rw [hcf] at hct; exact absurd hct (by simp)
  · intro hct
    rcases resolveOpt_ok_inv _ c cid hc with ⟨hcf, rfl⟩ | ⟨_, o, i, ho, hi, hu, rfl⟩
    · rw [hct] at hcf; exact absurd hcf (by simp)
    · have htr : optObjTruthy p.consumer = true := by
        rw [hcb.1]; exact uuidOk_truthy i hu
      exact ⟨htr, o, i, ho, hi, hcb.2 htr⟩
  · intro hsf
    rcases resolveOpt_ok_inv _ s sid hs with ⟨_, rfl⟩ | ⟨hst, _, _, _, _, _, rfl⟩
    · simpa using hsb.1
    · rw [hsf] at hst; exact absurd hst (by simp)
  · intro hst
    rcases resolveOpt_ok_inv _ s sid hs with ⟨hsf, rfl⟩ | ⟨_, o, i, ho, hi, hu, rfl⟩
    · rw [hst] at hsf; exact absurd hsf (by simp)
    · have htr : optObjTruthy p.service = true := by
        rw [hsb.1]; exact uuidOk_truthy i hu
      exact ⟨htr, o, i, ho, hi, hsb.2 htr⟩
  · intro hrf
    rcases resolveOpt_ok_inv _ r rid hr with ⟨_, rfl⟩ | ⟨hrt, _, _, _, _, _, rfl⟩
    · simpa using hrb.1
    · rw [hrf] at hrt; exact absurd hrt (by simp)
  · intro hrt
    rcases resolveOpt_ok_inv _ r rid hr with ⟨hrf, rfl⟩ | ⟨_, o, i, ho, hi, hu, rfl⟩
    · rw [hrt] at hrf; exact absurd hrf (by simp)
    · have htr : optObjTruthy p.route = true := by
        rw [hrb.1]; exact uuidOk_truthy i hu
      exact ⟨htr, o, i, ho, hi, hrb.2 htr⟩

/-- C2 witness: the binding-presence theorem applied on `envW`, whose query
with all three names returns exactly the fully bound Plugin `pM`. -/
theorem c2_binding_presence_symmetry_witness :
    (plugin_query envW 0 (some ("rate-limiting")) (some ("svc1")) (some ("rt1")) (some ("cons1")) none
        = .ok [pM] ∧ pM ∈ ([pM] : List Plugin)) ∧
    (((optStrTruthy (some ("cons1")) = false → optObjTruthy pM.consumer = false) ∧
      (optStrTruthy (some ("cons1")) = true → optObjTruthy pM.consumer = true ∧
         ∃ o i, envW.consumerGet ((some ("cons1")).getD ("")) = some o ∧
           o.lookup ("id") = some i ∧ bindId pM.consumer = some i)) ∧
     ((optStrTruthy (some ("svc1")) = false → optObjTruthy pM.service = false) ∧
      (optStrTruthy (some ("svc1")) = true → optObjTruthy pM.service = true ∧
         ∃ o i, envW.serviceGet ((some ("svc1")).getD ("")) = some o ∧
           o.lookup ("id") = some i ∧ bindId pM.service = some i)) ∧
     ((optStrTruthy (some ("rt1")) = false → optObjTruthy pM.route = false) ∧
      (optStrTruthy (some ("rt1")) = true → optObjTruthy pM.route = true ∧
         ∃ o i, envW.routeGet ((some ("rt1")).getD ("")) = some o ∧
           o.lookup ("id") = some i ∧ bindId pM.route = some i))) :=
  ⟨⟨rfl, List.mem_singleton.mpr rfl⟩,
   c2_binding_presence_symmetry envW 0 (some ("rate-limiting")) (some ("svc1")) (some ("rt1"))
     (some ("cons1")) none [pM] pM rfl (List.mem_singleton.mpr rfl)⟩

/-- C7: a delete with no matching resource returns the no-action result
without issuing a DELETE (`plugin_delete` on an empty match set,
`route_delete` when `route_get` found nothing); with exactly one match a
DELETE is issued against that match's id and, on the expected 204, the
call returns `True`. -/
theorem c7_delete_noop_and_single (penv : PluginEnv) (fuel : Nat) (name : String)
    (s r c : Option String) (l : List Plugin)
    (henv : HttpEnv) (rid0 : String) (code : Nat) (body : Val)
    (hq : plugin_query penv fuel (some name) s r c none = .ok l)
    (hg : henv.get (joinUri [("routes"), rid0]) = .resp code body) :
    (l = [] → plugin_delete penv fuel name s r c = .ok .noAction) ∧
    (∀ p0, l = [p0] → penv.deleteStatus (joinUri (("plugins") :: p0.id.toList)) = 204 →
      plugin_delete penv fuel name s r c
        = .ok (.deleted (joinUri (("plugins") :: p0.id.toList)) true)) ∧
    (400 ≤ code → route_delete henv rid0 = .ok .noAction) ∧
    (code < 400 → pyTruthyVal body = true → henv.delete (joinUri [("routes"), rid0]) = 204 →
      route_delete henv rid0 = .ok (.deleted (joinUri [("routes"), rid0]) true)) := by
  refine ⟨?_, ?_, ?_, ?_⟩
  · intro hl
    subst hl
    unfold plugin_delete
    rw [hq]
    simp
  · intro p0 hl hds
    subst hl
    unfold plugin_delete
    rw [hq]
    simp [pdelete, hds]
  · intro hcode
    unfold route_delete route_get kget
    rw [hg]
    simp [if_pos hcode, pyTruthyOpt]
  · intro hcode htr hds
    unfold route_delete route_get kget
    rw [hg]
    simp [Nat.not_le.mpr hcode, pyTruthyOpt, htr, hdelete, hds]

/-- C7 witness: the delete theorem applied on `envW` (one Plugin match,
deleted as `plugins/pid0`) and on `henvW` (Route `rt1` present, deleted
as `routes/rt1`). -/
theorem c7_delete_noop_and_single_witness :
    (plugin_query envW 0 (some ("rate-limiting")) (some ("svc1")) (some ("rt1")) (some ("cons1")) none
        = .ok [pM] ∧
     henvW.get (joinUri [("routes"), ("rt1")]) = .resp 200 (Val.obj [(("id"), Val.str ridA)]) ∧
     envW.deleteStatus (joinUri (("plugins") :: pM.id.toList)) = 204 ∧
     pyTruthyVal (Val.obj [(("id"), Val.str ridA)]) = true ∧
     henvW.delete (joinUri [("routes"), ("rt1")]) = 204) ∧
    (plugin_delete envW 0 ("rate-limiting") (some ("svc1")) (some ("rt1")) (some ("cons1"))
        = .ok (.deleted (joinUri (("plugins") :: pM.id.toList)) true) ∧
     route_delete henvW ("rt1") = .ok (.deleted (joinUri [("routes"), ("rt1")]) true)) :=
  ⟨⟨rfl, rfl, rfl, rfl, rfl⟩,
   ⟨(c7_delete_noop_and_single envW 0 ("rate-limiting") (some ("svc1")) (some ("rt1")) (some ("cons1"))
       [pM] henvW ("rt1") 200 (Val.obj [(("id"), Val.str ridA)]) rfl rfl).2.1 pM rfl rfl,
    (c7_delete_noop_and_single envW 0 ("rate-limiting") (some ("svc1")) (some ("rt1")) (some ("cons1"))
       [pM] henvW ("rt1") 200 (Val.obj [(("id"), Val.str ridA)]) rfl rfl).2.2.2
      (by decide) rfl rfl⟩⟩
